import Mathlib

/-!
Verification development for the receipt-processor service (`src/app.py`).

The Python source is shallowly embedded:
* the points engine `calculate_points` (app.py lines 128-173) becomes a pure
  function over `String`, `List Item` and `ℚ` (money amounts are modelled as
  rationals; every concrete amount appearing below is exactly representable
  as a binary double, so the modelled comparisons agree with the source's
  float comparisons at those points);
* the HTTP handler `process_receipt` (lines 60-109) becomes a function from a
  JSON-like value to an HTTP-level outcome (200/400/500) plus a store update,
  with Python exception flow (`ValueError` → 400, any other exception → 500)
  made explicit via `Except`;
* the SQLite table becomes an association list keyed by the receipt id.
-/

set_option autoImplicit false

section ReceiptVerification

/- The Batteries rational-number operations are `@[irreducible]`, which only
restricts elaborator-side unfolding (the kernel ignores reducibility hints).
Restoring the default transparency locally lets `decide`/`rfl` evaluate the
embedded program on concrete receipts. -/
attribute [local semireducible] Rat.ofScientific Rat.mul Rat.inv Rat.add Rat.sub

/- Equality of handler outcomes must be decidable so that concrete receipts
can be run through the embedded handler inside proofs. -/
deriving instance DecidableEq for Except

namespace ReceiptApp

/-- Python `str.strip` on the character list of a string: drop whitespace
from both ends.  `pyIsSpace` covers the ASCII whitespace characters
(space and `\t`..`\r`); the additional Unicode whitespace Python strips is
not used anywhere in this development. -/
def pyIsSpace (c : Char) : Bool := c = ' ' || (9 ≤ c.toNat && c.toNat ≤ 13)

/-- Characters of `s.strip()` (Python), as a list. -/
def pyStrip (s : String) : List Char :=
  ((s.data.dropWhile pyIsSpace).reverse.dropWhile pyIsSpace).reverse

/-- Numeric value of a list of decimal digit characters (most significant
first), as read by `int`/`strptime` group conversion. -/
def digitsToNat (cs : List Char) : ℕ :=
  cs.foldl (fun a c => a * 10 + (c.toNat - 48)) 0

/-- All characters are ASCII decimal digits. -/
def allDigits (cs : List Char) : Bool := cs.all Char.isDigit

/-- Split a character list at every occurrence of the separator character,
like Python `str.split(sep)` for a one-character separator. -/
def splitOnChar (sep : Char) : List Char → List (List Char)
  | [] => [[]]
  | c :: cs =>
    let rest := splitOnChar sep cs
    if c = sep then
      [] :: rest
    else
      match rest with
      | [] => [[c]]
      | g :: gs => (c :: g) :: gs

/-- Gregorian leap-year test used by `datetime`. -/
def isLeapYear (y : ℕ) : Bool := y % 4 = 0 && (y % 100 ≠ 0 || y % 400 = 0)

/-- Number of days in a month, as `datetime.datetime` validates it. -/
def daysInMonth (y m : ℕ) : ℕ :=
  if m = 2 then (if isLeapYear y then 29 else 28)
  else if m = 4 || m = 6 || m = 9 || m = 11 then 30
  else 31

/-- Model of `datetime.strptime(s, "%Y-%m-%d")` (app.py line 157): `%Y`
matches exactly four digits, `%m` one or two digits valued 1..12, `%d` one or
two digits valued 1..31 and further bounded by the month length; the whole
string must be consumed, and `datetime` requires year ≥ 1.  Returns
`(year, month, day)` on success. -/
def parseDate (s : String) : Option (ℕ × ℕ × ℕ) :=
  match splitOnChar '-' s.data with
  | [ys, ms, ds] =>
    if allDigits ys && ys.length = 4
        && allDigits ms && 1 ≤ ms.length && ms.length ≤ 2
        && allDigits ds && 1 ≤ ds.length && ds.length ≤ 2 then
      let y := digitsToNat ys
      let m := digitsToNat ms
      let d := digitsToNat ds
      if 1 ≤ y && 1 ≤ m && m ≤ 12 && 1 ≤ d && d ≤ daysInMonth y m then
        some (y, m, d)
      else none
    else none
  | _ => none

/-- Model of `datetime.strptime(s, "%H:%M")` (app.py line 165): `%H` matches
one or two digits valued 0..23, `%M` one or two digits valued 0..59, whole
string consumed.  Returns minutes since midnight on success. -/
def parseTime (s : String) : Option ℕ :=
  match splitOnChar ':' s.data with
  | [hs, ms] =>
    if allDigits hs && 1 ≤ hs.length && hs.length ≤ 2
        && allDigits ms && 1 ≤ ms.length && ms.length ≤ 2 then
      let h := digitsToNat hs
      let m := digitsToNat ms
      if h ≤ 23 && m ≤ 59 then some (h * 60 + m) else none
    else none
  | _ => none

/-- One purchased line item (app.py class `Item`, lines 44-52): a short
description and a non-negative price.  The price is stored as a rational. -/
structure Item where
  short_description : String
  price : ℚ
deriving DecidableEq

/-- Rule 1 (app.py line 132): one point per ASCII alphanumeric character kept
by `re.sub(r'[^a-zA-Z0-9]', '', retailer)`. -/
def rule1_retailer_points (retailer : String) : ℤ :=
  (retailer.data.filter Char.isAlphanum).length

/-- Rule 2 (app.py lines 135-136): 50 points when `total == math.floor(total)`. -/
def rule2_total_points (total : ℚ) : ℤ :=
  if total = (⌊total⌋ : ℚ) then 50 else 0

/-- Rule 3 (app.py lines 139-140): 25 points when
`math.fmod(total * 100, 25) == 0`, i.e. when `total * 100` is an integer
multiple of 25. -/
def rule3_total_points (total : ℚ) : ℤ :=
  if (total * 100 / 25).den = 1 then 25 else 0

/-- Rule 4 (app.py line 143): `(len(items) // 2) * 5`. -/
def rule4_item_count_points (items : List Item) : ℤ :=
  (items.length / 2 : ℕ) * 5

/-- Rule 5, contribution of one item (app.py lines 146-149): if the stripped
description length is positive and divisible by 3, add
`math.ceil(price * 0.2)` points, i.e. `⌈price / 5⌉`. -/
def rule5_item_points (item : Item) : ℤ :=
  let trimmed := pyStrip item.short_description
  if 0 < trimmed.length ∧ trimmed.length % 3 = 0 then ⌈item.price / 5⌉ else 0

/-- Rule 5 summed over the item loop (app.py lines 146-149). -/
def rule5_description_points (items : List Item) : ℤ :=
  (items.map rule5_item_points).sum

/-- Rule 6 (app.py lines 152-153): 5 points when `total > 10.00`. -/
def rule6_total_points (total : ℚ) : ℤ :=
  if 10 < total then 5 else 0

/-- Rule 7 (app.py lines 156-161): 6 points when the purchase date parses
under `%Y-%m-%d` and its day of month is odd; an unparsable date is caught
(`except ValueError`) and contributes 0. -/
def rule7_date_points (purchase_date : String) : ℤ :=
  match parseDate purchase_date with
  | some (_, _, d) => if d % 2 ≠ 0 then 6 else 0
  | none => 0

/-- Rule 8 (app.py lines 164-171): 10 points when the purchase time parses
under `%H:%M` and lies strictly between 14:00 and 16:00; an unparsable time
is caught and contributes 0. -/
def rule8_time_points (purchase_time : String) : ℤ :=
  match parseTime purchase_time with
  | some t => if 14 * 60 < t ∧ t < 16 * 60 then 10 else 0
  | none => 0

/-- The points engine `calculate_points` (app.py lines 128-173): the eight
rule contributions are accumulated into `points` one after another, which is
the sum of the eight per-rule terms. -/
def calculate_points (retailer purchase_date purchase_time : String)
    (items : List Item) (total : ℚ) : ℤ :=
  rule1_retailer_points retailer
    + rule2_total_points total
    + rule3_total_points total
    + rule4_item_count_points items
    + rule5_description_points items
    + rule6_total_points total
    + rule7_date_points purchase_date
    + rule8_time_points purchase_time

/-! ### JSON-like payloads and Python value semantics

`process_receipt` receives `request.get_json()`, an arbitrary parsed JSON
value.  Python exception flow is embedded in `Except Halt`: a `ValueError`
and every explicit `return ..., 400` become `Halt.badRequest` (the handler
maps `ValueError` to HTTP 400 at lines 104-106), and every other exception
(`TypeError`, `AttributeError`, `KeyError`, ...) becomes `Halt.serverError`
(the catch-all at lines 107-109 maps it to HTTP 500). -/

/-- A parsed JSON value, as produced by `request.get_json()`. -/
inductive Json where
  | null
  | bool (b : Bool)
  | num (q : ℚ)
  | str (s : String)
  | arr (elements : List Json)
  | obj (entries : List (String × Json))

/-- Early exit of the request handler: either an HTTP 400 with an error
message or an HTTP 500. -/
inductive Halt where
  | badRequest (msg : String)
  | serverError
deriving DecidableEq

/-- Python truthiness, used by `if not data:` (app.py line 64): `None`,
`False`, zero, and empty strings/lists/dicts are falsy. -/
def pyTruthy : Json → Bool
  | .null => false
  | .bool b => b
  | .num q => !(q == 0)
  | .str s => !s.data.isEmpty
  | .arr xs => !xs.isEmpty
  | .obj kvs => !kvs.isEmpty

/-- Dictionary lookup with Python semantics (for duplicate keys the last
entry wins, as in `json.loads`). -/
def objFind (entries : List (String × Json)) (k : String) : Option Json :=
  entries.foldl (fun acc kv => if kv.1 = k then some kv.2 else acc) none

/-- Does `pat` occur as a contiguous run at the head of `cs`? -/
def startsWithChars : List Char → List Char → Bool
  | [], _ => true
  | _ :: _, [] => false
  | p :: ps, c :: cs => p = c && startsWithChars ps cs

/-- Does `pat` occur as a contiguous run anywhere in `cs`?  (Python `in` on
strings; the empty pattern always occurs.) -/
def containsChars (pat : List Char) : List Char → Bool
  | [] => startsWithChars pat []
  | c :: cs => startsWithChars pat (c :: cs) || containsChars pat cs

/-- Python `k in j` for a string key `k`: key membership for dicts,
element membership for lists, substring for strings; `TypeError` (hence
HTTP 500) for the remaining types. -/
def pyContains (j : Json) (k : String) : Except Halt Bool :=
  match j with
  | .obj entries => .ok (objFind entries k).isSome
  | .arr xs => .ok (xs.any fun x => match x with | .str s => s = k | _ => false)
  | .str s => .ok (containsChars k.data s.data)
  | _ => .error .serverError

/-- Python `j[k]` for a string key `k`: dict lookup (`KeyError` when
absent); `TypeError` for every non-dict value. -/
def pyIndex (j : Json) (k : String) : Except Halt Json :=
  match j with
  | .obj entries =>
    match objFind entries k with
    | some v => .ok v
    | none => .error .serverError
  | _ => .error .serverError

/-- Helper for `parseFloat`: split at the first character satisfying `p`,
returning the part before it and, when found, the part after it. -/
def splitFirst (p : Char → Bool) : List Char → List Char × Option (List Char)
  | [] => ([], none)
  | c :: cs =>
    if p c then ([], some cs)
    else
      let r := splitFirst p cs
      (c :: r.1, r.2)

/-- Optional leading sign; returns (isNegative, rest). -/
def takeSign : List Char → Bool × List Char
  | '+' :: cs => (false, cs)
  | '-' :: cs => (true, cs)
  | cs => (false, cs)

/-- Mantissa of a decimal literal: `digits`, `digits.digits`, `digits.` or
`.digits`, with at least one digit in all. -/
def parseMantissa (cs : List Char) : Option ℚ :=
  match splitFirst (· = '.') cs with
  | (ip, none) =>
    if allDigits ip && !ip.isEmpty then some (digitsToNat ip : ℚ) else none
  | (ip, some fp) =>
    if allDigits ip && allDigits fp && !(ip.isEmpty && fp.isEmpty) then
      some ((digitsToNat ip : ℚ) + (digitsToNat fp : ℚ) / (10 : ℚ) ^ fp.length)
    else none

/-- Model of Python `float(s)` on strings: surrounding whitespace, an
optional sign, a decimal mantissa and an optional exponent part.  The
non-rational specials `inf`/`nan` (and digit-group underscores) are outside
this rational model and no claim below exercises them. -/
def parseFloat (s : String) : Option ℚ :=
  let cs := pyStrip s
  let (neg, cs) := takeSign cs
  let (mant, expPart) := splitFirst (fun c => c = 'e' || c = 'E') cs
  match parseMantissa mant with
  | none => none
  | some q =>
    let signed := if neg then -q else q
    match expPart with
    | none => some signed
    | some ecs =>
      let (eneg, ds) := takeSign ecs
      if allDigits ds && !ds.isEmpty then
        some (if eneg then signed / (10 : ℚ) ^ digitsToNat ds
              else signed * (10 : ℚ) ^ digitsToNat ds)
      else none

/-- Python `float(j)` (app.py lines 48 and 85): numbers and booleans
convert, strings are parsed (`ValueError`, hence HTTP 400, when they do not
parse), everything else raises `TypeError`, hence HTTP 500. -/
def pyFloat (j : Json) : Except Halt ℚ :=
  match j with
  | .num q => .ok q
  | .bool b => .ok (if b then 1 else 0)
  | .str s =>
    match parseFloat s with
    | some q => .ok q
    | none => .error (.badRequest ("could not convert string to float: " ++ s))
  | _ => .error .serverError

/-- Validation of one element of `items` (app.py lines 80-83 and the `Item`
constructor, lines 44-52): both keys must be present, the price must
convert via `float` and be non-negative; a `ValueError` from `float` is
wrapped by the constructor and stays a 400.  The description is kept as the
raw JSON value, exactly as `Item.__init__` stores it. -/
def parseItem (j : Json) : Except Halt (Json × ℚ) := do
  let hasDesc ← pyContains j "shortDescription"
  let hasPrice ← pyContains j "price"
  if !(hasDesc && hasPrice) then
    throw (.badRequest "Each item must have shortDescription and price")
  let desc ← pyIndex j "shortDescription"
  let priceJ ← pyIndex j "price"
  match pyFloat priceJ with
  | .ok p =>
    if p < 0 then throw (.badRequest "Invalid price: Price cannot be negative")
    else return (desc, p)
  | .error (.badRequest m) => throw (.badRequest ("Invalid price: " ++ m))
  | .error .serverError => throw .serverError

/-- The `for item in data['items']` loop of app.py lines 79-83, stopping at
the first failing item. -/
def parseItems : List Json → Except Halt (List (Json × ℚ))
  | [] => .ok []
  | j :: js => do
    let it ← parseItem j
    let rest ← parseItems js
    return (it :: rest)

/-- Each stored description must be an actual string: `calculate_points`
calls `item.short_description.strip()` on every item (line 147), so a
non-string description raises `AttributeError`, hence HTTP 500. -/
def toItems : List (Json × ℚ) → Except Halt (List Item)
  | [] => .ok []
  | (desc, p) :: rest =>
    match desc with
    | .str s => do
      let r ← toItems rest
      return (⟨s, p⟩ :: r)
    | _ => throw .serverError

/-- Request processing of `process_receipt` up to the computation of the
points (app.py lines 62-91), in source order: truthiness check, required
fields, `items` must be a list, `retailer` non-empty after strip, item
validation, `total` conversion and sign check.  `purchaseDate` and
`purchaseTime` must be strings, since `strptime` raises `TypeError` (not
caught by the `except ValueError` of rules 7/8) on any other type. -/
def runRequest (data : Json) :
    Except Halt (String × String × String × List Item × ℚ) := do
  if !pyTruthy data then
    throw (.badRequest "Invalid JSON")
  let hasRetailer ← pyContains data "retailer"
  let hasDate ← pyContains data "purchaseDate"
  let hasTime ← pyContains data "purchaseTime"
  let hasItems ← pyContains data "items"
  let hasTotal ← pyContains data "total"
  if !(hasRetailer && hasDate && hasTime && hasItems && hasTotal) then
    throw (.badRequest "Missing required fields")
  let itemsJ ← pyIndex data "items"
  let itemList ← match itemsJ with
    | .arr l => pure l
    | _ => throw (Halt.badRequest "Items must be a list")
  let retailerJ ← pyIndex data "retailer"
  let retailer ← match retailerJ with
    | .str r => pure r
    | _ => throw Halt.serverError
  if (pyStrip retailer).isEmpty then
    throw (.badRequest "Retailer cannot be empty")
  let rawItems ← parseItems itemList
  let totalJ ← pyIndex data "total"
  let total ← pyFloat totalJ
  if total < 0 then
    throw (.badRequest "Total cannot be negative")
  let items ← toItems rawItems
  let dateJ ← pyIndex data "purchaseDate"
  let pd ← match dateJ with
    | .str pd => pure pd
    | _ => throw Halt.serverError
  let timeJ ← pyIndex data "purchaseTime"
  let pt ← match timeJ with
    | .str pt => pure pt
    | _ => throw Halt.serverError
  return (retailer, pd, pt, items, total)

/-! ### Receipt store and HTTP-level outcomes -/

/-- One row of the `receipts` table (app.py lines 31-41 and 94-99).  The
`items` column holds `str([vars(item) for item in items])` in the source;
it is kept here as the structured item list it serializes. -/
structure StoredReceipt where
  retailer : String
  purchase_date : String
  purchase_time : String
  items : List Item
  total : ℚ
  points : ℤ
deriving DecidableEq

/-- The `receipts` table: rows keyed by the id primary key. -/
abbrev Store := List (String × StoredReceipt)

/-- Row lookup by primary key (`SELECT ... WHERE id = ?`). -/
def storeFind : Store → String → Option StoredReceipt
  | [], _ => none
  | e :: rest, id => if e.1 = id then some e.2 else storeFind rest id

/-- Outcome of `POST /receipts/process`: 200 with the generated id, 400
with an error message, or 500. -/
inductive ProcResult where
  | created (id : String)
  | badRequest (msg : String)
  | serverError
deriving DecidableEq

/-- Outcome of `GET /receipts/<id>/points`: 200 with the points or 404. -/
inductive GetResult where
  | found (points : ℤ)
  | notFound
deriving DecidableEq

/-- The whole `process_receipt` handler (app.py lines 60-109) given the
freshly generated `uuid4` id: on validation success the points are computed
and the row inserted.  Inserting an id that already exists violates the
primary key, raising `sqlite3.IntegrityError`, hence HTTP 500. -/
def process_receipt (freshId : String) (s : Store) (data : Json) :
    ProcResult × Store :=
  match runRequest data with
  | .error (.badRequest m) => (.badRequest m, s)
  | .error .serverError => (.serverError, s)
  | .ok (retailer, pd, pt, items, total) =>
    let points := calculate_points retailer pd pt items total
    if (storeFind s freshId).isSome then
      (.serverError, s)
    else
      (.created freshId, (freshId, ⟨retailer, pd, pt, items, total, points⟩) :: s)

/-- The `get_points` handler (app.py lines 111-126). -/
def get_points (s : Store) (id : String) : GetResult :=
  match storeFind s id with
  | some rec => .found rec.points
  | none => .notFound

/-- A well-formed submission payload, as described in §6 of the spec:
all five fields, items each carrying a description and a numeric price. -/
def mkItemJson (i : Item) : Json :=
  .obj [("shortDescription", .str i.short_description), ("price", .num i.price)]

/-- Payload with the five required fields. -/
def mkPayload (retailer purchaseDate purchaseTime : String)
    (items : List Item) (total : ℚ) : Json :=
  .obj [("retailer", .str retailer), ("purchaseDate", .str purchaseDate),
        ("purchaseTime", .str purchaseTime),
        ("items", .arr (items.map mkItemJson)), ("total", .num total)]

/-- Stores reachable from the empty table by submissions (successful or
not); `get_points` never writes, so these are all the states the service
can be in. -/
inductive Reachable : Store → Prop where
  | empty : Reachable []
  | create (s : Store) (freshId : String) (data : Json) :
      Reachable s → Reachable (process_receipt freshId s data).2

/-- Every row's points column is the points engine applied to the other
columns of that same row. -/
def StoreConsistent (s : Store) : Prop :=
  ∀ e ∈ s, e.2.points =
    calculate_points e.2.retailer e.2.purchase_date e.2.purchase_time
      e.2.items e.2.total

/-! ### Helper lemmas -/

/-- Validating a well-formed item succeeds and keeps its fields. -/
theorem parseItem_mkItemJson (i : Item) (h : 0 ≤ i.price) :
    parseItem (mkItemJson i) = .ok (.str i.short_description, i.price) := by
  simp only [parseItem, mkItemJson, pyContains, objFind, pyIndex, pyFloat,
    List.foldl, bind, Except.instMonad, Except.bind, Except.pure, pure, throw,
    throwThe, MonadExceptOf.throw]
  simp [not_lt.mpr h]

/-- The item loop succeeds on a list of well-formed items. -/
theorem parseItems_map (items : List Item) (h : ∀ i ∈ items, 0 ≤ i.price) :
    parseItems (items.map mkItemJson) =
      .ok (items.map fun i => (Json.str i.short_description, i.price)) := by
  induction items with
  | nil => rfl
  | cons i rest ih =>
    simp only [List.map_cons, parseItems,
      parseItem_mkItemJson i (h i (List.mem_cons_self i rest)),
      ih (fun j hj => h j (List.mem_cons_of_mem i hj)),
      bind, Except.instMonad, Except.bind, Except.pure, pure]

/-- Recovering the domain items from validated well-formed items. -/
theorem toItems_map (items : List Item) :
    toItems (items.map fun i => (Json.str i.short_description, i.price)) =
      .ok items := by
  induction items with
  | nil => rfl
  | cons i rest ih =>
    simp only [List.map_cons, toItems, ih, bind, Except.instMonad, Except.bind,
      Except.pure, pure]

/-- A well-formed payload with a non-empty retailer, non-negative prices and
a non-negative total passes the whole validation pipeline unchanged. -/
theorem runRequest_mkPayload (r pd pt : String) (items : List Item) (q : ℚ)
    (hr : pyStrip r ≠ []) (hq : 0 ≤ q) (hi : ∀ i ∈ items, 0 ≤ i.price) :
    runRequest (mkPayload r pd pt items q) = .ok (r, pd, pt, items, q) := by
  obtain ⟨a, l, hal⟩ : ∃ a l, pyStrip r = a :: l := by
    cases hpe : pyStrip r with
    | nil => exact absurd hpe hr
    | cons a l => exact ⟨a, l, rfl⟩
  simp only [runRequest, mkPayload, pyTruthy, pyContains, pyIndex, pyFloat, objFind,
    List.foldl, bind, Except.instMonad, Except.bind, Except.pure, pure, throw,
    throwThe, MonadExceptOf.throw, parseItems_map items hi, toItems_map, hal]
  simp [not_lt.mpr hq, hal, parseItems_map items hi, toItems_map]

/-- Each of the eight rule contributions is individually non-negative (for
rule 5, given non-negative prices). -/
theorem rule1_nonneg (r : String) : 0 ≤ rule1_retailer_points r :=
  Int.ofNat_nonneg _

theorem rule2_nonneg (q : ℚ) : 0 ≤ rule2_total_points q := by
  unfold rule2_total_points; split <;> norm_num

theorem rule3_nonneg (q : ℚ) : 0 ≤ rule3_total_points q := by
  unfold rule3_total_points; split <;> norm_num

theorem rule4_nonneg (items : List Item) : 0 ≤ rule4_item_count_points items := by
  unfold rule4_item_count_points; positivity

theorem rule5_item_nonneg (i : Item) (h : 0 ≤ i.price) : 0 ≤ rule5_item_points i := by
  simp only [rule5_item_points]
  split
  · exact Int.ceil_nonneg (by positivity)
  · norm_num

theorem rule5_nonneg (items : List Item) (h : ∀ i ∈ items, 0 ≤ i.price) :
    0 ≤ rule5_description_points items := by
  unfold rule5_description_points
  refine List.sum_nonneg ?_
  intro x hx
  obtain ⟨i, hi, rfl⟩ := List.mem_map.mp hx
  exact rule5_item_nonneg i (h i hi)

theorem rule6_nonneg (q : ℚ) : 0 ≤ rule6_total_points q := by
  unfold rule6_total_points; split <;> norm_num

theorem rule7_nonneg (d : String) : 0 ≤ rule7_date_points d := by
  unfold rule7_date_points
  rcases parseDate d with - | ⟨-, -, dd⟩
  · norm_num
  · simp only []
    split <;> norm_num

theorem rule8_nonneg (t : String) : 0 ≤ rule8_time_points t := by
  unfold rule8_time_points
  rcases parseTime t with - | m
  · norm_num
  · simp only []
    split <;> norm_num


/-! ### Concrete receipts used as witnesses and counterexamples -/

/-- The single item of spec §8 Scenario A. -/
def pepsiItem : Item := ⟨"Pepsi - 12-oz", 1.25⟩

/-- Payload with the five required keys bound to arbitrary JSON values. -/
def payload5 (retailer purchaseDate purchaseTime items total : Json) : Json :=
  .obj [("retailer", retailer), ("purchaseDate", purchaseDate),
        ("purchaseTime", purchaseTime), ("items", items), ("total", total)]

/-- Scenario A payload of spec §8. -/
def scenarioAPayload : Json := mkPayload "Target" "2022-01-01" "13:01" [pepsiItem] 1.25

/-- Scenario A payload with the total replaced. -/
def scenarioATotal (t : Json) : Json :=
  payload5 (.str "Target") (.str "2022-01-01") (.str "13:01")
    (.arr [mkItemJson pepsiItem]) t

/-- Membership of a row found by primary key. -/
theorem storeFind_mem (s : Store) (id : String) (rec : StoredReceipt)
    (h : storeFind s id = some rec) : (id, rec) ∈ s := by
  induction s with
  | nil => simp [storeFind] at h
  | cons e rest ih =>
    obtain ⟨eid, erec⟩ := e
    unfold storeFind at h
    split_ifs at h with he
    · obtain rfl : erec = rec := Option.some.inj h
      obtain rfl : eid = id := he
      exact List.mem_cons_self _ _
    · exact List.mem_cons_of_mem _ (ih h)

/-- In a consistent store, a 200 from `get_points` always carries the
engine value of the stored row. -/
theorem consistent_get (s : Store) (hc : StoreConsistent s) (id : String) (p : ℤ)
    (hg : get_points s id = .found p) :
    ∃ rec, storeFind s id = some rec ∧
      p = calculate_points rec.retailer rec.purchase_date rec.purchase_time
        rec.items rec.total := by
  unfold get_points at hg
  cases hf : storeFind s id with
  | none => rw [hf] at hg; cases hg
  | some rec =>
    rw [hf] at hg
    obtain rfl : rec.points = p := by cases hg; rfl
    exact ⟨rec, rfl, hc (id, rec) (storeFind_mem s id rec hf)⟩

/-- A submission either leaves the store unchanged or prepends one row whose
points column is the engine value of its other columns. -/
theorem process_receipt_store_cases (freshId : String) (s : Store) (data : Json) :
    (process_receipt freshId s data).2 = s ∨
    ∃ r pd pt items total,
      (process_receipt freshId s data).2 =
        (freshId, ⟨r, pd, pt, items, total,
          calculate_points r pd pt items total⟩) :: s := by
  unfold process_receipt
  cases h : runRequest data with
  | error e => cases e <;> simp
  | ok v =>
    obtain ⟨r, pd, pt, items, total⟩ := v
    dsimp only
    split_ifs with hdup
    · exact Or.inl rfl
    · exact Or.inr ⟨r, pd, pt, items, total, rfl⟩

/-- Reachable stores are consistent. -/
theorem reachable_consistent (s : Store) (h : Reachable s) : StoreConsistent s := by
  induction h with
  | empty => intro e he; cases he
  | create s' freshId data _ ih =>
    rcases process_receipt_store_cases freshId s' data with heq | ⟨r, pd, pt, items, total, heq⟩
    · rw [heq]; exact ih
    · rw [heq]
      intro e he
      rcases List.mem_cons.mp he with rfl | hmem
      · rfl
      · exact ih e hmem

/-! ### Claim theorems -/

/-- C1: a successfully submitted receipt is persisted with its computed
points under the fresh identifier, and `get_points` on that identifier
returns exactly those points with HTTP 200. -/
theorem create_then_get_points_roundtrip (s : Store) (freshId : String) (data : Json)
    (r pd pt : String) (items : List Item) (total : ℚ)
    (hfresh : storeFind s freshId = none)
    (hval : runRequest data = .ok (r, pd, pt, items, total)) :
    (process_receipt freshId s data).1 = .created freshId ∧
    get_points (process_receipt freshId s data).2 freshId =
      .found (calculate_points r pd pt items total) := by
  have h2 : process_receipt freshId s data =
      (.created freshId, (freshId, ⟨r, pd, pt, items, total,
        calculate_points r pd pt items total⟩) :: s) := by
    unfold process_receipt
    rw [hval]
    simp [hfresh]
  rw [h2]
  exact ⟨rfl, by unfold get_points storeFind; simp⟩

/-- C1 witness: round trip on the Scenario A receipt from the empty store. -/
theorem create_then_get_points_roundtrip_witness :
    storeFind [] "id-1" = none ∧
    runRequest scenarioAPayload = .ok ("Target", "2022-01-01", "13:01", [pepsiItem], 1.25) ∧
    ((process_receipt "id-1" [] scenarioAPayload).1 = .created "id-1" ∧
      get_points (process_receipt "id-1" [] scenarioAPayload).2 "id-1" =
        .found (calculate_points "Target" "2022-01-01" "13:01" [pepsiItem] 1.25)) :=
  ⟨by decide, by decide,
    create_then_get_points_roundtrip [] "id-1" scenarioAPayload
      "Target" "2022-01-01" "13:01" [pepsiItem] 1.25 (by decide) (by decide)⟩

/-- Non-negativity of the engine, as a shared lemma: the eight rule terms
are all non-negative when every price is. -/
theorem calculate_points_nonneg_aux (r pd pt : String) (items : List Item)
    (total : ℚ) (hprice : ∀ i ∈ items, 0 ≤ i.price) :
    0 ≤ calculate_points r pd pt items total := by
  unfold calculate_points
  exact add_nonneg (add_nonneg (add_nonneg (add_nonneg (add_nonneg (add_nonneg
    (add_nonneg (rule1_nonneg r) (rule2_nonneg total)) (rule3_nonneg total))
    (rule4_nonneg items)) (rule5_nonneg items hprice)) (rule6_nonneg total))
    (rule7_nonneg pd)) (rule8_nonneg pt)

/-- C3: the engine never returns a negative score on receipts whose item
prices and total are non-negative. -/
theorem calculate_points_nonneg (r pd pt : String) (items : List Item) (total : ℚ)
    (hprice : ∀ i ∈ items, 0 ≤ i.price) (htotal : 0 ≤ total) :
    0 ≤ calculate_points r pd pt items total :=
  calculate_points_nonneg_aux r pd pt items total hprice

/-- C3 witness: non-negativity at the Scenario A receipt. -/
theorem calculate_points_nonneg_witness :
    (∀ i ∈ [pepsiItem], 0 ≤ i.price) ∧ (0 : ℚ) ≤ 1.25 ∧
    0 ≤ calculate_points "Target" "2022-01-01" "13:01" [pepsiItem] 1.25 :=
  ⟨by decide, by decide,
    calculate_points_nonneg "Target" "2022-01-01" "13:01" [pepsiItem] 1.25
      (by decide) (by decide)⟩


/-- C4: rule 6 contributes 5 exactly when the total is strictly greater
than 10.00; at 10.00 it contributes 0 and at 10.01 it contributes 5. -/
theorem rule6_strictly_above_ten (total : ℚ) :
    (rule6_total_points total = 5 ↔ 10 < total) ∧
    (¬ 10 < total → rule6_total_points total = 0) ∧
    rule6_total_points 10 = 0 ∧ rule6_total_points (10.01 : ℚ) = 5 := by
  refine ⟨?_, ?_, by decide, by decide⟩
  · unfold rule6_total_points
    split_ifs with h
    · exact iff_of_true rfl h
    · exact iff_of_false (by norm_num) h
  · intro h
    unfold rule6_total_points
    rw [if_neg h]

/-- C4 witness: instantiation at the boundary value 10.00. -/
theorem rule6_strictly_above_ten_witness :
    (rule6_total_points 10 = 5 ↔ 10 < (10 : ℚ)) ∧
    (¬ 10 < (10 : ℚ) → rule6_total_points 10 = 0) ∧
    rule6_total_points 10 = 0 ∧ rule6_total_points (10.01 : ℚ) = 5 :=
  rule6_strictly_above_ten 10

/-- C5: rule 8 contributes 10 exactly when the time parses under HH:MM to a
value strictly between 14:00 and 16:00; both ends and unparsable strings
contribute 0 without failing. -/
theorem rule8_strict_window (t : String) :
    (rule8_time_points t = 10 ↔
      ∃ m, parseTime t = some m ∧ 14 * 60 < m ∧ m < 16 * 60) ∧
    (parseTime t = none → rule8_time_points t = 0) ∧
    rule8_time_points "14:00" = 0 ∧ rule8_time_points "16:00" = 0 ∧
    rule8_time_points "15:00" = 10 := by
  refine ⟨?_, ?_, by decide, by decide, by decide⟩
  · unfold rule8_time_points
    cases hp : parseTime t with
    | none => simp [hp]
    | some m =>
      simp only [hp]
      split_ifs with h
      · exact iff_of_true rfl ⟨m, rfl, h⟩
      · refine iff_of_false (by norm_num) ?_
        rintro ⟨m', hm', h1, h2⟩
        obtain rfl : m = m' := Option.some.inj hm'
        exact h ⟨h1, h2⟩
  · intro h
    unfold rule8_time_points
    rw [h]

/-- C5 witness: instantiation at an unparsable time string. -/
theorem rule8_strict_window_witness :
    parseTime "2pm" = none ∧ rule8_time_points "2pm" = 0 :=
  ⟨by decide, (rule8_strict_window "2pm").2.1 (by decide)⟩

/-- C7: the Scenario A receipt scores exactly 37 = 6 + 0 + 25 + 0 + 0 + 0 +
6 + 0, rule by rule. -/
theorem scenario_a_scores_37 :
    rule1_retailer_points "Target" = 6 ∧
    rule2_total_points 1.25 = 0 ∧
    rule3_total_points 1.25 = 25 ∧
    rule4_item_count_points [pepsiItem] = 0 ∧
    rule5_description_points [pepsiItem] = 0 ∧
    rule6_total_points 1.25 = 0 ∧
    rule7_date_points "2022-01-01" = 6 ∧
    rule8_time_points "13:01" = 0 ∧
    calculate_points "Target" "2022-01-01" "13:01" [pepsiItem] 1.25 = 37 := by
  decide

/-- C6: a payload whose purchase date does not parse is still accepted:
the row is stored (HTTP 200 with the fresh id) and rule 7 contributes 0. -/
theorem malformed_date_still_succeeds (s : Store) (freshId : String)
    (r pd pt : String) (items : List Item) (total : ℚ)
    (hfresh : storeFind s freshId = none)
    (hr : pyStrip r ≠ []) (htotal : 0 ≤ total)
    (hprice : ∀ i ∈ items, 0 ≤ i.price)
    (hdate : parseDate pd = none) :
    process_receipt freshId s (mkPayload r pd pt items total) =
      (.created freshId, (freshId, ⟨r, pd, pt, items, total,
        calculate_points r pd pt items total⟩) :: s) ∧
    rule7_date_points pd = 0 := by
  constructor
  · unfold process_receipt
    rw [runRequest_mkPayload r pd pt items total hr htotal hprice]
    simp [hfresh]
  · unfold rule7_date_points
    rw [hdate]

/-- C6 witness: Scenario B, the malformed date 2022-13-40. -/
theorem malformed_date_still_succeeds_witness :
    storeFind [] "id-1" = none ∧ pyStrip "Target" ≠ [] ∧ (0 : ℚ) ≤ 1.25 ∧
    (∀ i ∈ [pepsiItem], 0 ≤ i.price) ∧ parseDate "2022-13-40" = none ∧
    (process_receipt "id-1" [] (mkPayload "Target" "2022-13-40" "13:01" [pepsiItem] 1.25) =
      (.created "id-1", [("id-1", ⟨"Target", "2022-13-40", "13:01", [pepsiItem], 1.25,
        calculate_points "Target" "2022-13-40" "13:01" [pepsiItem] 1.25⟩)]) ∧
      rule7_date_points "2022-13-40" = 0) :=
  ⟨by decide, by decide, by decide, by decide, by decide,
    malformed_date_still_succeeds [] "id-1" "Target" "2022-13-40" "13:01"
      [pepsiItem] 1.25 (by decide) (by decide) (by decide) (by decide) (by decide)⟩

/-- C9: an empty item list is not rejected: submission succeeds, rules 4
and 5 contribute 0, and the stored score is retrievable and non-negative. -/
theorem empty_items_accepted (s : Store) (freshId : String)
    (r pd pt : String) (total : ℚ)
    (hfresh : storeFind s freshId = none)
    (hr : pyStrip r ≠ []) (htotal : 0 ≤ total) :
    (process_receipt freshId s (mkPayload r pd pt [] total)).1 = .created freshId ∧
    rule4_item_count_points [] = 0 ∧
    rule5_description_points [] = 0 ∧
    get_points (process_receipt freshId s (mkPayload r pd pt [] total)).2 freshId =
      .found (calculate_points r pd pt [] total) ∧
    0 ≤ calculate_points r pd pt [] total := by
  have h2 : process_receipt freshId s (mkPayload r pd pt [] total) =
      (.created freshId, (freshId, ⟨r, pd, pt, [], total,
        calculate_points r pd pt [] total⟩) :: s) := by
    unfold process_receipt
    rw [runRequest_mkPayload r pd pt [] total hr htotal (by simp)]
    simp [hfresh]
  rw [h2]
  refine ⟨rfl, rfl, rfl, ?_, ?_⟩
  · unfold get_points storeFind
    simp
  · exact calculate_points_nonneg_aux r pd pt [] total (by simp)

/-- C9 witness: Scenario C with the Scenario A fields and no items. -/
theorem empty_items_accepted_witness :
    storeFind [] "id-1" = none ∧ pyStrip "Target" ≠ [] ∧ (0 : ℚ) ≤ 1.25 ∧
    ((process_receipt "id-1" [] (mkPayload "Target" "2022-01-01" "13:01" [] 1.25)).1 =
        .created "id-1" ∧
      rule4_item_count_points [] = 0 ∧
      rule5_description_points [] = 0 ∧
      get_points (process_receipt "id-1" [] (mkPayload "Target" "2022-01-01" "13:01" [] 1.25)).2
          "id-1" = .found (calculate_points "Target" "2022-01-01" "13:01" [] 1.25) ∧
      0 ≤ calculate_points "Target" "2022-01-01" "13:01" [] 1.25) :=
  ⟨by decide, by decide, by decide,
    empty_items_accepted [] "id-1" "Target" "2022-01-01" "13:01" 1.25
      (by decide) (by decide) (by decide)⟩

/-- C10: in every reachable store state each row's points column is the
engine applied to that row's stored fields, so `get_points` only ever
returns engine values of stored receipts. -/
theorem store_points_invariant (s : Store) (h : Reachable s) :
    StoreConsistent s ∧
    ∀ id p, get_points s id = .found p →
      ∃ rec, storeFind s id = some rec ∧
        p = calculate_points rec.retailer rec.purchase_date rec.purchase_time
          rec.items rec.total :=
  ⟨reachable_consistent s h,
    fun id p hg => consistent_get s (reachable_consistent s h) id p hg⟩

/-- C10 witness: the store reached by one Scenario A submission. -/
theorem store_points_invariant_witness :
    Reachable (process_receipt "id-1" [] scenarioAPayload).2 ∧
    (StoreConsistent (process_receipt "id-1" [] scenarioAPayload).2 ∧
      ∀ id p, get_points (process_receipt "id-1" [] scenarioAPayload).2 id = .found p →
        ∃ rec, storeFind (process_receipt "id-1" [] scenarioAPayload).2 id = some rec ∧
          p = calculate_points rec.retailer rec.purchase_date rec.purchase_time
            rec.items rec.total) :=
  ⟨Reachable.create [] "id-1" scenarioAPayload Reachable.empty,
    store_points_invariant _ (Reachable.create [] "id-1" scenarioAPayload Reachable.empty)⟩

/-- C2 counterexample: a payload failing §4.1 check 7 because its total is
JSON null is answered with HTTP 500, not 400: `float(None)` raises
`TypeError`, which only the generic `except Exception` handler catches. -/
theorem null_total_yields_500 :
    process_receipt "id-1" [] (scenarioATotal .null) = (.serverError, []) := by
  decide

/-- C2 amended: failures detected by an explicit check or a `ValueError`
are answered with 400, but a `total` or `price` of JSON type null, list or
object raises `TypeError` inside `float()` and is answered with 500. -/
theorem validation_failure_statuses :
    process_receipt "id-1" [] (.obj [("retailer", .str "Target")]) =
      (.badRequest "Missing required fields", []) ∧
    process_receipt "id-1" [] (payload5 (.str "Target") (.str "2022-01-01")
        (.str "13:01") (.num 3) (.num 1.25)) =
      (.badRequest "Items must be a list", []) ∧
    process_receipt "id-1" [] (payload5 (.str "  ") (.str "2022-01-01")
        (.str "13:01") (.arr []) (.num 1.25)) =
      (.badRequest "Retailer cannot be empty", []) ∧
    process_receipt "id-1" [] (payload5 (.str "Target") (.str "2022-01-01")
        (.str "13:01") (.arr [.obj [("shortDescription", .str "Pepsi")]]) (.num 1.25)) =
      (.badRequest "Each item must have shortDescription and price", []) ∧
    process_receipt "id-1" [] (payload5 (.str "Target") (.str "2022-01-01")
        (.str "13:01") (.arr [.obj [("shortDescription", .str "Pepsi"),
          ("price", .str "abc")]]) (.num 1.25)) =
      (.badRequest "Invalid price: could not convert string to float: abc", []) ∧
    process_receipt "id-1" [] (scenarioATotal (.str "not-a-number")) =
      (.badRequest "could not convert string to float: not-a-number", []) ∧
    process_receipt "id-1" [] (scenarioATotal (.num (-1))) =
      (.badRequest "Total cannot be negative", []) ∧
    process_receipt "id-1" [] (scenarioATotal .null) = (.serverError, []) ∧
    process_receipt "id-1" [] (scenarioATotal (.arr [])) = (.serverError, []) ∧
    process_receipt "id-1" [] (scenarioATotal (.obj [])) = (.serverError, []) ∧
    process_receipt "id-1" [] (payload5 (.str "Target") (.str "2022-01-01")
        (.str "13:01") (.arr [.obj [("shortDescription", .str "Pepsi"),
          ("price", .null)]]) (.num 1.25)) =
      (.serverError, []) :=
  ⟨by decide, by decide, by decide, by decide, by decide, by decide, by decide,
    by decide, by decide, by decide, by decide⟩

/-- C8 counterexample: the empty JSON object is falsy in Python, so
`if not data` rejects it at check 1 with the MalformedInput message, not
with the MissingField message of check 2. -/
theorem empty_object_fails_check1 :
    process_receipt "id-1" [] (.obj []) = (.badRequest "Invalid JSON", []) ∧
    ("Invalid JSON" : String) ≠ "Missing required fields" := by
  decide

/-- C8 amended: check 1 rejects null, non-objects and falsy input —
including the empty object — while every non-empty object passes it, so a
non-empty object missing a required field is rejected at check 2 with the
MissingField message. -/
theorem nonempty_object_passes_check1 (id : String) (s : Store)
    (kvs : List (String × Json))
    (hne : kvs ≠ []) (hmiss : objFind kvs "retailer" = none) :
    process_receipt id s (.obj kvs) = (.badRequest "Missing required fields", s) ∧
    process_receipt id s (.obj []) = (.badRequest "Invalid JSON", s) ∧
    process_receipt id s .null = (.badRequest "Invalid JSON", s) := by
  refine ⟨?_, rfl, rfl⟩
  obtain ⟨e, l, rfl⟩ : ∃ e l, kvs = e :: l := by
    cases kvs with
    | nil => exact absurd rfl hne
    | cons e l => exact ⟨e, l, rfl⟩
  unfold process_receipt runRequest
  simp only [pyTruthy, pyContains, hmiss, List.isEmpty, Bool.not_false,
    bind, Except.instMonad, Except.bind, Except.pure, pure, throw, throwThe,
    MonadExceptOf.throw, Option.isSome_none, Bool.false_and, Bool.not_true]
  rfl

/-- C8 amended witness: a one-entry object missing every required field. -/
theorem nonempty_object_passes_check1_witness :
    ([(("foo" : String), Json.null)] ≠ ([] : List (String × Json))) ∧
    objFind [("foo", Json.null)] "retailer" = none ∧
    (process_receipt "id-1" [] (.obj [("foo", Json.null)]) =
        (.badRequest "Missing required fields", []) ∧
      process_receipt "id-1" [] (.obj []) = (.badRequest "Invalid JSON", []) ∧
      process_receipt "id-1" [] .null = (.badRequest "Invalid JSON", [])) :=
  ⟨by simp, rfl,
    nonempty_object_passes_check1 "id-1" [] [("foo", Json.null)] (by simp) rfl⟩


end ReceiptApp

end ReceiptVerification
